import Mathlib

/-!
Shallow embedding of the lofi stream server (WebSocket → ffmpeg RTMP relay).

The source is a Node.js program with:
* `loadStreamConfig(platform)` — reads `$HOME/api-secrets/lofi-stream/platforms/<platform>.env`
  and parses `KEY=VALUE` lines into an object;
* `class StreamOutput` — the process supervisor: `start()`, `write(chunk)`, `stop()`,
  plus `close`/`error` event handlers registered on the spawned ffmpeg child;
* a `streams` Map (platform → StreamOutput), an HTTP health endpoint, and a
  WebSocket connection handler with per-connection state `streamOutput`/`platform`.

Side effects (spawning, stdin writes, kills, logging, frames sent on the socket)
are modelled as an explicit effect trace; machine state is passed explicitly.
-/

/-- Opaque binary chunk (a byte buffer). -/
abbrev Chunk := List Nat

/-- JSON frames the server sends on the WebSocket:
`ws.send(JSON.stringify({ status, platform }))` and
`ws.send(JSON.stringify({ error: msg }))`. -/
inductive Frame where
  | statusFrame (status : String) (platform : String)
  | errorFrame (msg : String)
deriving DecidableEq

/-- Observable side effects of the server code. -/
inductive Effect where
  | log (msg : String)
  | logErr (msg : String)
  | spawnChild (id : Nat) (rtmpUrl : String)
  | stdinWrite (id : Nat) (chunk : Chunk)
  | stdinEnd (id : Nat)
  | kill (id : Nat) (signal : String)
  | wsSend (frame : Frame)
deriving DecidableEq

/-- JS truthiness of an optional string (`undefined` and `""` are falsy). -/
def jsTruthy (v : Option String) : Bool :=
  match v with
  | some s => if s = ("") then false else true
  | none => false

/-- JS `v || d` for an optional string value. -/
def jsOr (v : Option String) (d : String) : String :=
  match v with
  | some s => if s = ("") then d else s
  | none => d

/-- Split a character list on a separator, mirroring JS `String.split(sep)`
for a one-character separator (`''.split(x) = ['']`, and a trailing
separator yields a trailing empty piece). -/
def splitListOn (sep : Char) : List Char → List (List Char)
  | [] => [[]]
  | c :: rest =>
    if c = sep then [] :: splitListOn sep rest
    else
      match splitListOn sep rest with
      | [] => [[c]]
      | g :: gs => (c :: g) :: gs

/-- JS `s.split(sep)` for a one-character separator. -/
def jsSplit (sep : Char) (s : String) : List String :=
  (splitListOn sep s.data).map String.mk

/-- ASCII whitespace, the characters relevant to trimming env-file lines. -/
def isWsChar (c : Char) : Bool :=
  c = ' ' || c = '\t' || c = '\n' || c = '\r' || c = '\x0b' || c = '\x0c'

/-- JS `s.trim()` (restricted to ASCII whitespace). -/
def jsTrim (s : String) : String :=
  String.mk (((s.data.dropWhile isWsChar).reverse.dropWhile isWsChar).reverse)

/-- JS `s.startsWith(c)` for a one-character prefix. -/
def jsStartsWith (s : String) (c : Char) : Bool :=
  match s.data with
  | d :: _ => d = c
  | [] => false

/-- JS `parts.join(sep)`. -/
def joinWith (sep : String) : List String → String
  | [] => ("")
  | s :: rest => rest.foldl (fun acc t => acc ++ sep ++ t) s

/-- Source: `${process.env.HOME}/api-secrets/lofi-stream/platforms/${platform}.env`. -/
def envPath (home platform : String) : String :=
  home ++ ("/api-secrets/lofi-stream/platforms/") ++ platform ++ (".env")

/-- One iteration of the line loop in `loadStreamConfig`:
skip empty lines and lines starting with a hash; split the line on the equals
sign, and when both the key and the remainder are non-empty, assign
`config[key.trim()] = valueParts.join(sep).trim()` (later lines overwrite). -/
def parseEnvLine (cfg : String → Option String) (line : String) : String → Option String :=
  if line ≠ ("") ∧ ¬ (jsStartsWith line '#') then
    match jsSplit '=' line with
    | [] => cfg
    | key :: valueParts =>
      if key ≠ ("") ∧ valueParts ≠ [] then
        fun k => if k = jsTrim key then some (jsTrim (joinWith ("=") valueParts)) else cfg k
      else cfg
  else cfg

/-- The whole parse of an env file body: `content.split(newline).forEach(...)`. -/
def parseEnvContent (content : String) : String → Option String :=
  (jsSplit '\n' content).foldl parseEnvLine (fun _ => none)

/-- Source `loadStreamConfig(platform)`: `null` (here `none`) with a logged
error when the file does not exist, otherwise the parsed key-value object.
The filesystem is passed in as a map from path to file content. -/
def loadStreamConfig (fsys : String → Option String) (home platform : String) :
    Option (String → Option String) × List Effect :=
  match fsys (envPath home platform) with
  | none => (none, [Effect.logErr (("Stream config not found: ") ++ envPath home platform)])
  | some content => (some (parseEnvContent content), [])

/-- The handler's acceptance test: `!(!streamConfig || !streamConfig.STREAM_KEY)`. -/
def configResolves (fsys : String → Option String) (home platform : String) : Bool :=
  match (loadStreamConfig fsys home platform).1 with
  | some sc => jsTruthy (sc ("STREAM_KEY"))
  | none => false

/-- The literal fallback in the handler: `streamConfig.STREAM_URL || <this>`. -/
def defaultStreamUrl : String := ("rtmp://a.rtmp.youtube.com/live2")

/-- The supervisor's view of a spawned child: its identity and whether its
stdin currently accepts writes (`this.ffmpeg.stdin.writable`). -/
structure ChildProcess where
  id : Nat
  stdinWritable : Bool
deriving DecidableEq

/-- The `StreamOutput` class fields. -/
structure StreamOutput where
  platform : String
  streamKey : String
  streamUrl : String
  ffmpeg : Option ChildProcess
  isStreaming : Bool
deriving DecidableEq

/-- The `StreamOutput` constructor. -/
def StreamOutput.new (platform streamKey streamUrl : String) : StreamOutput :=
  { platform := platform
    streamKey := streamKey
    streamUrl := streamUrl
    ffmpeg := none
    isStreaming := false }

/-- Events on one `StreamOutput`: its three methods plus the `close` and
`error` events of the spawned child (fresh child ids are passed in). -/
inductive SupEvent where
  | startEv (freshId : Nat)
  | writeEv (chunk : Chunk)
  | stopEv
  | childCloseEv (code : Int)
  | childErrorEv (err : String)
deriving DecidableEq

/-- One `StreamOutput` step, read off the class body:
* `start()` — if `this.ffmpeg` is set, log and return; else log, spawn ffmpeg
  at `this.streamUrl + slash + this.streamKey`, set `this.isStreaming = true`;
* `write(chunk)` — `if (this.ffmpeg && this.ffmpeg.stdin.writable) stdin.write(chunk)`;
* `stop()` — if `this.ffmpeg` is set: log, `stdin.end()`, `kill(SIGTERM)`,
  clear `this.ffmpeg` and `this.isStreaming`;
* the `close` and `error` handlers — log, then unconditionally clear
  `this.ffmpeg` and `this.isStreaming`. -/
def supStep (s : StreamOutput) : SupEvent → StreamOutput × List Effect
  | SupEvent.startEv fid =>
    match s.ffmpeg with
    | some _ => (s, [Effect.log (("[") ++ s.platform ++ ("] FFmpeg already running"))])
    | none =>
      ({ s with ffmpeg := some { id := fid, stdinWritable := true }, isStreaming := true },
       [Effect.log (("[") ++ s.platform ++ ("] Starting ffmpeg → ") ++ s.streamUrl ++ ("/***")),
        Effect.spawnChild fid (s.streamUrl ++ ("/") ++ s.streamKey)])
  | SupEvent.writeEv ch =>
    match s.ffmpeg with
    | some c => if c.stdinWritable then (s, [Effect.stdinWrite c.id ch]) else (s, [])
    | none => (s, [])
  | SupEvent.stopEv =>
    match s.ffmpeg with
    | some c =>
      ({ s with ffmpeg := none, isStreaming := false },
       [Effect.log (("[") ++ s.platform ++ ("] Stopping ffmpeg")),
        Effect.stdinEnd c.id, Effect.kill c.id ("SIGTERM")])
    | none => (s, [])
  | SupEvent.childCloseEv code =>
    ({ s with ffmpeg := none, isStreaming := false },
     [Effect.log (("[") ++ s.platform ++ ("] FFmpeg exited with code ") ++ toString code)])
  | SupEvent.childErrorEv err =>
    ({ s with ffmpeg := none, isStreaming := false },
     [Effect.logErr (("[") ++ s.platform ++ ("] FFmpeg error: ") ++ err)])

/-- How many times the clearing assignments (`this.ffmpeg = null;
this.isStreaming = false;`) execute while handling one event: in `stop()`
they are guarded by `if (this.ffmpeg)`; in the child's `close` and `error`
handlers they run unconditionally. -/
def clearsExecuted (s : StreamOutput) : SupEvent → Nat
  | SupEvent.stopEv => if s.ffmpeg.isSome then 1 else 0
  | SupEvent.childCloseEv _ => 1
  | SupEvent.childErrorEv _ => 1
  | SupEvent.startEv _ => 0
  | SupEvent.writeEv _ => 0

/-- Total number of executions of the clearing assignments over a trace. -/
def supClears : StreamOutput → List SupEvent → Nat
  | _, [] => 0
  | s, ev :: rest => clearsExecuted s ev + supClears (supStep s ev).1 rest

/-- Number of child processes spawned in an effect trace. -/
def spawnCount (effs : List Effect) : Nat :=
  (effs.filter fun e =>
    match e with
    | Effect.spawnChild _ _ => true
    | _ => false).length

/-- The kill effects of a trace. -/
def killsOf (effs : List Effect) : List Effect :=
  effs.filter fun e =>
    match e with
    | Effect.kill _ _ => true
    | _ => false

/-- The frames sent to the client in an effect trace. -/
def sentFrames (effs : List Effect) : List Frame :=
  effs.filterMap fun e =>
    match e with
    | Effect.wsSend f => some f
    | _ => none

/-- The chunks delivered to child `cid`'s stdin in a trace, in order. -/
def chunksTo (cid : Nat) (effs : List Effect) : List Chunk :=
  effs.filterMap fun e =>
    match e with
    | Effect.stdinWrite i ch => if i = cid then some ch else none
    | _ => none

/-- JS `Map.get`. -/
def alGet {α β : Type} [DecidableEq α] (m : List (α × β)) (k : α) : Option β :=
  match m with
  | [] => none
  | (k', v) :: rest => if k' = k then some v else alGet rest k

/-- JS `Map.set`: overwrite in place, preserving insertion order, else append. -/
def alSet {α β : Type} [DecidableEq α] (m : List (α × β)) (k : α) (v : β) : List (α × β) :=
  match m with
  | [] => [(k, v)]
  | (k', v') :: rest => if k' = k then (k, v) :: rest else (k', v') :: alSet rest k v

/-- JS `Map.delete`. -/
def alDelete {α β : Type} [DecidableEq α] (m : List (α × β)) (k : α) : List (α × β) :=
  match m with
  | [] => []
  | (k', v') :: rest => if k' = k then alDelete rest k else (k', v') :: alDelete rest k

/-- Number of entries under a given key. -/
def keyCount {α β : Type} [DecidableEq α] (m : List (α × β)) (k : α) : Nat :=
  (m.filter fun e => e.1 = k).length

/-- Global server state: the heap of `StreamOutput` objects ever created
(indexed by an allocation id) and the `streams` registry Map from platform
to the id of its `StreamOutput`. -/
structure Server where
  sups : List (Nat × StreamOutput)
  streams : List (String × Nat)
  nextSup : Nat
deriving DecidableEq

/-- A parsed configuration message `{ platform: ... }` (the field may be
absent or empty, in which case the handler falls back to youtube). -/
structure ConfigMsg where
  platform : Option String
deriving DecidableEq

/-- A WebSocket message: a text frame (with `none` when `JSON.parse` throws)
or a binary video chunk. -/
inductive Msg where
  | text (cfg : Option ConfigMsg)
  | binary (chunk : Chunk)
deriving DecidableEq

/-- Per-connection state of the `wss.on(connection)` closure:
`let streamOutput = null; let platform = 'youtube';`. -/
structure Conn where
  streamOutput : Option Nat
  platform : String
deriving DecidableEq

/-- Connection state right after accept. -/
def newConn : Conn := { streamOutput := none, platform := ("youtube") }

/-- The `ws.on(message)` handler. First message while `streamOutput` is null
and not binary: parse config (logging and returning on a parse error), set
`platform = config.platform || youtube`, load the platform config; if it is
missing or has no truthy `STREAM_KEY`, send an error frame and return;
otherwise construct a `StreamOutput` (with `STREAM_URL || defaultStreamUrl`),
`start()` it, `streams.set(platform, streamOutput)`, and send the status
frame. Binary messages while `streamOutput` exists are forwarded to
`streamOutput.write`. Anything else falls through with no effect. -/
def handleMessage (fsys : String → Option String) (home : String)
    (srv : Server) (c : Conn) (msg : Msg) : Server × Conn × List Effect :=
  match c.streamOutput, msg with
  | none, Msg.text parsed =>
    match parsed with
    | none => (srv, c, [Effect.logErr ("Invalid config message")])
    | some cfg =>
      let platform := jsOr cfg.platform ("youtube")
      let c1 : Conn := { c with platform := platform }
      let cfgLog := Effect.log (("Configuring stream for platform: ") ++ platform)
      match loadStreamConfig fsys home platform with
      | (none, lcEffs) =>
        (srv, c1, cfgLog :: lcEffs ++
          [Effect.wsSend (Frame.errorFrame (("No stream key found for ") ++ platform))])
      | (some sc, lcEffs) =>
        if jsTruthy (sc ("STREAM_KEY")) then
          let sid := srv.nextSup
          let sup0 := StreamOutput.new platform ((sc ("STREAM_KEY")).getD (""))
            (jsOr (sc ("STREAM_URL")) defaultStreamUrl)
          let r := supStep sup0 (SupEvent.startEv sid)
          ({ sups := alSet srv.sups sid r.1
             streams := alSet srv.streams platform sid
             nextSup := srv.nextSup + 1 },
           { c1 with streamOutput := some sid },
           cfgLog :: lcEffs ++ r.2 ++
             [Effect.wsSend (Frame.statusFrame ("streaming") platform)])
        else
          (srv, c1, cfgLog :: lcEffs ++
            [Effect.wsSend (Frame.errorFrame (("No stream key found for ") ++ platform))])
  | some sid, Msg.binary ch =>
    match alGet srv.sups sid with
    | some sup =>
      let r := supStep sup (SupEvent.writeEv ch)
      ({ srv with sups := alSet srv.sups sid r.1 }, c, r.2)
    | none => (srv, c, [])
  | none, Msg.binary _ => (srv, c, [])
  | some _, Msg.text _ => (srv, c, [])

/-- The `ws.on(close)` handler: log; if `streamOutput` exists,
`streamOutput.stop()` and `streams.delete(platform)`. -/
def handleClose (srv : Server) (c : Conn) : Server × Conn × List Effect :=
  let dis := Effect.log ("Browser disconnected")
  match c.streamOutput with
  | some sid =>
    match alGet srv.sups sid with
    | some sup =>
      let r := supStep sup SupEvent.stopEv
      ({ srv with
          sups := alSet srv.sups sid r.1
          streams := alDelete srv.streams c.platform }, c, dis :: r.2)
    | none =>
      ({ srv with streams := alDelete srv.streams c.platform }, c, [dis])
  | none => (srv, c, [dis])

/-- The `ws.on(error)` handler: `console.error` only — the source performs
no teardown here. -/
def handleErrorWs (srv : Server) (c : Conn) (err : String) : Server × Conn × List Effect :=
  (srv, c, [Effect.logErr (("WebSocket error: ") ++ err)])

/-- Deliver a child-process event (`close` or `error`) to the `StreamOutput`
object whose `start()` registered the handler. -/
def handleChildEvent (srv : Server) (sid : Nat) (ev : SupEvent) : Server × List Effect :=
  match alGet srv.sups sid with
  | some sup =>
    let r := supStep sup ev
    ({ srv with sups := alSet srv.sups sid r.1 }, r.2)
  | none => (srv, [])

/-- Run a list of incoming messages on one connection, accumulating effects. -/
def runMsgs (fsys : String → Option String) (home : String) :
    Server → Conn → List Msg → Server × Conn × List Effect
  | srv, c, [] => (srv, c, [])
  | srv, c, m :: rest =>
    let r := handleMessage fsys home srv c m
    let r2 := runMsgs fsys home r.1 r.2.1 rest
    (r2.1, r2.2.1, r.2.2 ++ r2.2.2)

/-- The health endpoint's `streams` field: `Array.from(streams.keys())`. -/
def healthStreams (srv : Server) : List String :=
  srv.streams.map Prod.fst

/-- The health endpoint's `activeStreams` field:
`Array.from(streams.values()).filter(s => s.isStreaming).length`. -/
def healthActive (srv : Server) : Nat :=
  ((srv.streams.filterMap fun e => alGet srv.sups e.2).filter fun s => s.isStreaming).length

/-- A home directory for concrete scenarios. -/
def homeDir : String := ("/home/lofi")

/-- A filesystem holding only a youtube credential file (key, no URL). -/
def fsDemo : String → Option String :=
  fun path => if path = envPath homeDir ("youtube") then some ("STREAM_KEY=ytkey123") else none

/-- A filesystem where youtube and twitch both have a key but no
`STREAM_URL` override. -/
def fsKeysOnly : String → Option String :=
  fun path =>
    if path = envPath homeDir ("youtube") then some ("STREAM_KEY=ytkey123")
    else if path = envPath homeDir ("twitch") then some ("STREAM_KEY=twkey456")
    else none

/-- An empty server. -/
def srv0demo : Server := { sups := [], streams := [], nextSup := 0 }

/-- A freshly constructed supervisor for concrete scenarios. -/
def supDemo : StreamOutput := StreamOutput.new ("youtube") ("ytkey123") defaultStreamUrl

/-- A running supervisor (child 0 spawned, stdin writable). -/
def supRunning : StreamOutput := (supStep supDemo (SupEvent.startEv 0)).1

/-- A server with one running stream registered for youtube. -/
def srvStreaming : Server :=
  { sups := [(0, supRunning)], streams := [(("youtube"), 0)], nextSup := 1 }

/-- The connection state owning that stream. -/
def connStreaming : Conn := { streamOutput := some 0, platform := ("youtube") }

theorem alGet_alSet_self {α β : Type} [DecidableEq α] (m : List (α × β)) (k : α) (v : β) :
    alGet (alSet m k v) k = some v := by
  induction m with
  | nil => simp [alSet, alGet]
  | cons hd tl ih =>
    obtain ⟨k', v'⟩ := hd
    by_cases h : k' = k
    · simp [alSet, h, alGet]
    · simp [alSet, h, alGet, ih]

theorem alGet_alSet_ne {α β : Type} [DecidableEq α] (m : List (α × β)) (k k' : α) (v : β)
    (h : k ≠ k') : alGet (alSet m k' v) k = alGet m k := by
  induction m with
  | nil => simp [alSet, alGet, Ne.symm h]
  | cons hd tl ih =>
    obtain ⟨k'', v''⟩ := hd
    by_cases h2 : k'' = k'
    · subst h2
      simp [alSet, alGet, Ne.symm h]
    · by_cases h3 : k'' = k
      · subst h3
        simp [alSet, alGet, h2]
      · simp [alSet, h2, alGet, h3, ih]

theorem alSet_get_eq {α β : Type} [DecidableEq α] (m : List (α × β)) (k : α) (v : β)
    (h : alGet m k = some v) : alSet m k v = m := by
  induction m with
  | nil => simp [alGet] at h
  | cons hd tl ih =>
    obtain ⟨k', v'⟩ := hd
    by_cases h2 : k' = k
    · subst h2
      simp [alGet] at h
      simp [alSet, h]
    · simp [alGet, h2] at h
      simp [alSet, h2, ih h]

theorem alGet_alDelete_self {α β : Type} [DecidableEq α] (m : List (α × β)) (k : α) :
    alGet (alDelete m k) k = none := by
  induction m with
  | nil => simp [alDelete, alGet]
  | cons hd tl ih =>
    obtain ⟨k', v'⟩ := hd
    by_cases h : k' = k
    · simp [alDelete, h, ih]
    · simp [alDelete, h, alGet, ih]

theorem not_mem_keys_alDelete {α β : Type} [DecidableEq α] (m : List (α × β)) (k : α) :
    k ∉ (alDelete m k).map Prod.fst := by
  induction m with
  | nil => simp [alDelete]
  | cons hd tl ih =>
    obtain ⟨k', v'⟩ := hd
    by_cases h : k' = k
    · simpa [alDelete, h] using ih
    · simp [alDelete, h, Ne.symm h, ih]

theorem mem_keys_alSet {α β : Type} [DecidableEq α] (m : List (α × β)) (k x : α) (v : β)
    (h : x ∈ (alSet m k v).map Prod.fst) : x ∈ m.map Prod.fst ∨ x = k := by
  induction m with
  | nil =>
    simp only [alSet, List.map_cons, List.map_nil, List.mem_singleton] at h
    exact Or.inr h
  | cons hd tl ih =>
    obtain ⟨k', v'⟩ := hd
    simp only [List.map_cons, List.mem_cons]
    by_cases h2 : k' = k
    · rw [show alSet ((k', v') :: tl) k v = (k, v) :: tl from by simp [alSet, h2]] at h
      simp only [List.map_cons, List.mem_cons] at h
      rcases h with h | h
      · exact Or.inr h
      · exact Or.inl (Or.inr h)
    · rw [show alSet ((k', v') :: tl) k v = (k', v') :: alSet tl k v from by
        simp [alSet, h2]] at h
      simp only [List.map_cons, List.mem_cons] at h
      rcases h with h | h
      · exact Or.inl (Or.inl h)
      · rcases ih h with h3 | h3
        · exact Or.inl (Or.inr h3)
        · exact Or.inr h3

theorem nodup_keys_alSet {α β : Type} [DecidableEq α] (m : List (α × β)) (k : α) (v : β)
    (h : (m.map Prod.fst).Nodup) : ((alSet m k v).map Prod.fst).Nodup := by
  induction m with
  | nil => simp [alSet]
  | cons hd tl ih =>
    obtain ⟨k', v'⟩ := hd
    simp only [List.map_cons, List.nodup_cons] at h
    by_cases h2 : k' = k
    · subst h2
      rw [show alSet ((k', v') :: tl) k' v = (k', v) :: tl from by simp [alSet]]
      simp only [List.map_cons, List.nodup_cons]
      exact h
    · rw [show alSet ((k', v') :: tl) k v = (k', v') :: alSet tl k v from by
        simp [alSet, h2]]
      simp only [List.map_cons, List.nodup_cons]
      refine ⟨?_, ih h.2⟩
      intro hmem
      rcases mem_keys_alSet tl k k' v hmem with h3 | h3
      · exact h.1 h3
      · exact h2 h3

theorem keyCount_eq_zero {α β : Type} [DecidableEq α] (m : List (α × β)) (k : α)
    (h : k ∉ m.map Prod.fst) : keyCount m k = 0 := by
  induction m with
  | nil => simp [keyCount]
  | cons hd tl ih =>
    obtain ⟨k', v'⟩ := hd
    simp only [List.map_cons, List.mem_cons, not_or] at h
    have hk : ¬ k' = k := fun hh => h.1 hh.symm
    simpa [keyCount, List.filter_cons, hk] using ih h.2

theorem keyCount_alSet {α β : Type} [DecidableEq α] (m : List (α × β)) (k : α) (v : β)
    (h : (m.map Prod.fst).Nodup) : keyCount (alSet m k v) k = 1 := by
  induction m with
  | nil => simp [alSet, keyCount, List.filter_cons]
  | cons hd tl ih =>
    obtain ⟨k', v'⟩ := hd
    simp only [List.map_cons, List.nodup_cons] at h
    by_cases h2 : k' = k
    · subst h2
      rw [show alSet ((k', v') :: tl) k' v = (k', v) :: tl from by simp [alSet]]
      have h0 : keyCount tl k' = 0 := keyCount_eq_zero tl k' h.1
      simpa [keyCount, List.filter_cons] using h0
    · rw [show alSet ((k', v') :: tl) k v = (k', v') :: alSet tl k v from by
        simp [alSet, h2]]
      have h0 := ih h.2
      simpa [keyCount, List.filter_cons, h2] using h0

theorem jsOr_of_falsy (v : Option String) (d : String) (h : jsTruthy v = false) :
    jsOr v d = d := by
  cases v with
  | none => rfl
  | some s =>
    by_cases hs : s = ("")
    · simp [jsOr, hs]
    · simp [jsTruthy, hs] at h

theorem loadStreamConfig_none (fsys : String → Option String) (home platform : String)
    (h : (loadStreamConfig fsys home platform).1 = none) :
    loadStreamConfig fsys home platform =
      (none, [Effect.logErr (("Stream config not found: ") ++ envPath home platform)]) := by
  unfold loadStreamConfig at h ⊢
  cases hf : fsys (envPath home platform) with
  | none => simp
  | some content => rw [hf] at h; simp at h

theorem loadStreamConfig_some (fsys : String → Option String) (home platform : String)
    (sc : String → Option String) (h : (loadStreamConfig fsys home platform).1 = some sc) :
    loadStreamConfig fsys home platform = (some sc, []) := by
  unfold loadStreamConfig at h ⊢
  cases hf : fsys (envPath home platform) with
  | none => rw [hf] at h; simp at h
  | some content =>
    rw [hf] at h
    simp at h
    simp [h]

theorem configResolves_true (fsys : String → Option String) (home platform : String)
    (h : configResolves fsys home platform = true) :
    ∃ sc, loadStreamConfig fsys home platform = (some sc, []) ∧
      jsTruthy (sc ("STREAM_KEY")) = true := by
  unfold configResolves at h
  cases hl : (loadStreamConfig fsys home platform).1 with
  | none => rw [hl] at h; simp at h
  | some sc =>
    refine ⟨sc, loadStreamConfig_some fsys home platform sc hl, ?_⟩
    rw [hl] at h
    exact h

/-- Shape of a successful configuration handshake: the handler constructs the
`StreamOutput`, starts it (spawning one child), registers it under the
platform key, and sends the streaming status frame. -/
theorem handleMessage_config_success (fsys : String → Option String) (home : String)
    (srv : Server) (c : Conn) (cfg : ConfigMsg) (sc : String → Option String)
    (h0 : c.streamOutput = none)
    (hl : loadStreamConfig fsys home (jsOr cfg.platform ("youtube")) = (some sc, []))
    (hkey : jsTruthy (sc ("STREAM_KEY")) = true) :
    handleMessage fsys home srv c (Msg.text (some cfg)) =
      ({ sups := alSet srv.sups srv.nextSup
           { platform := jsOr cfg.platform ("youtube")
             streamKey := (sc ("STREAM_KEY")).getD ("")
             streamUrl := jsOr (sc ("STREAM_URL")) defaultStreamUrl
             ffmpeg := some { id := srv.nextSup, stdinWritable := true }
             isStreaming := true }
         streams := alSet srv.streams (jsOr cfg.platform ("youtube")) srv.nextSup
         nextSup := srv.nextSup + 1 },
       { streamOutput := some srv.nextSup, platform := jsOr cfg.platform ("youtube") },
       [Effect.log (("Configuring stream for platform: ") ++ jsOr cfg.platform ("youtube")),
        Effect.log (("[") ++ jsOr cfg.platform ("youtube") ++ ("] Starting ffmpeg → ") ++
          jsOr (sc ("STREAM_URL")) defaultStreamUrl ++ ("/***")),
        Effect.spawnChild srv.nextSup
          (jsOr (sc ("STREAM_URL")) defaultStreamUrl ++ ("/") ++ (sc ("STREAM_KEY")).getD ("")),
        Effect.wsSend (Frame.statusFrame ("streaming") (jsOr cfg.platform ("youtube")))]) := by
  obtain ⟨so, pl⟩ := c
  simp only [Conn.streamOutput] at h0
  subst h0
  simp [handleMessage, hl, hkey, StreamOutput.new, supStep]

/-- Shape of a failed configuration handshake (platform file missing or
`STREAM_KEY` not truthy): server state unchanged, the session keeps
`streamOutput = null`, exactly the error frame is sent, nothing is spawned. -/
theorem handleMessage_config_failure (fsys : String → Option String) (home : String)
    (srv : Server) (c : Conn) (cfg : ConfigMsg)
    (h0 : c.streamOutput = none)
    (hres : configResolves fsys home (jsOr cfg.platform ("youtube")) = false) :
    (handleMessage fsys home srv c (Msg.text (some cfg))).1 = srv ∧
    (handleMessage fsys home srv c (Msg.text (some cfg))).2.1 =
      { streamOutput := none, platform := jsOr cfg.platform ("youtube") } ∧
    sentFrames (handleMessage fsys home srv c (Msg.text (some cfg))).2.2 =
      [Frame.errorFrame (("No stream key found for ") ++ jsOr cfg.platform ("youtube"))] ∧
    spawnCount (handleMessage fsys home srv c (Msg.text (some cfg))).2.2 = 0 := by
  obtain ⟨so, pl⟩ := c
  simp only [Conn.streamOutput] at h0
  subst h0
  unfold configResolves at hres
  cases hl : (loadStreamConfig fsys home (jsOr cfg.platform ("youtube"))).1 with
  | none =>
    have hfull := loadStreamConfig_none fsys home (jsOr cfg.platform ("youtube")) hl
    simp [handleMessage, hfull, sentFrames, spawnCount]
  | some sc =>
    rw [hl] at hres
    have hres' : jsTruthy (sc ("STREAM_KEY")) = false := hres
    have hfull := loadStreamConfig_some fsys home (jsOr cfg.platform ("youtube")) sc hl
    simp [handleMessage, hfull, hres', sentFrames, spawnCount]

/-- C8 (confirmed): `write(chunk)` forwards the chunk to the child's input
channel exactly when the child exists and its stdin accepts writes; in every
other case — stopped supervisor (`ffmpeg` null) or a child that already exited
and closed its stdin — the chunk is silently dropped: the supervisor state is
unchanged in all cases and no error is raised to the caller (the operation is
total and produces at most the single stdin-write effect). -/
theorem C8_write_forwards_or_drops (s : StreamOutput) (ch : Chunk) :
    (supStep s (SupEvent.writeEv ch)).1 = s ∧
    (supStep s (SupEvent.writeEv ch)).2 =
      (match s.ffmpeg with
       | some child => if child.stdinWritable then [Effect.stdinWrite child.id ch] else []
       | none => []) := by
  obtain ⟨p, k, u, f, b⟩ := s
  cases f with
  | none => simp [supStep]
  | some child =>
    by_cases hc : child.stdinWritable
    · simp [supStep, hc]
    · simp [supStep, hc]

/-- C5 (confirmed): `start()` is idempotent — starting a freshly constructed
`StreamOutput` twice spawns exactly one child (one spawn effect over both
calls); the second call leaves the state unchanged and only logs the
already-running message. -/
theorem C5_start_idempotent (p k u : String) (fid1 fid2 : Nat) :
    (supStep (supStep (StreamOutput.new p k u) (SupEvent.startEv fid1)).1
        (SupEvent.startEv fid2)).1 =
      (supStep (StreamOutput.new p k u) (SupEvent.startEv fid1)).1 ∧
    spawnCount ((supStep (StreamOutput.new p k u) (SupEvent.startEv fid1)).2 ++
        (supStep (supStep (StreamOutput.new p k u) (SupEvent.startEv fid1)).1
          (SupEvent.startEv fid2)).2) = 1 ∧
    (supStep (supStep (StreamOutput.new p k u) (SupEvent.startEv fid1)).1
        (SupEvent.startEv fid2)).2 =
      [Effect.log (("[") ++ p ++ ("] FFmpeg already running"))] := by
  refine ⟨rfl, ?_, rfl⟩
  simp [StreamOutput.new, supStep, spawnCount, List.filter_cons]

/-- C2 counterexample: on the trace start(); stop(); child close event (the
exit that stop()'s SIGTERM provokes), the clearing assignments
(`this.ffmpeg = null; this.isStreaming = false`) execute twice — once in
`stop()` and once more in the unconditional `close` handler — not exactly
once as the claim requires. -/
theorem C2_clear_twice_counterexample :
    supClears supDemo [SupEvent.startEv 0, SupEvent.stopEv, SupEvent.childCloseEv 0] = 2 := by
  decide

/-- C2 amended: when the child terminates, the close handler always leaves
`running = false` and the child reference cleared; when `stop()` already ran,
the handler performs the clearing a second time, but on the already-cleared
state this second clearing changes nothing (the supervisor state after
stop-then-exit equals the state after stop alone). The hypothesis is the
reachability invariant that a supervisor without a child is not streaming. -/
theorem C2_clear_idempotent_amended (s : StreamOutput) (code code' : Int)
    (hinv : s.ffmpeg = none → s.isStreaming = false) :
    (supStep s (SupEvent.childCloseEv code)).1.ffmpeg = none ∧
    (supStep s (SupEvent.childCloseEv code)).1.isStreaming = false ∧
    (supStep (supStep s SupEvent.stopEv).1 (SupEvent.childCloseEv code')).1 =
      (supStep s SupEvent.stopEv).1 := by
  obtain ⟨p, k, u, f, b⟩ := s
  cases f with
  | some child => simp [supStep]
  | none =>
    have hb : b = false := hinv rfl
    subst hb
    simp [supStep]

/-- Witness for the C2 amended theorem at a concrete running supervisor. -/
theorem C2_clear_idempotent_amended_witness :
    (supRunning.ffmpeg = none → supRunning.isStreaming = false) ∧
    ((supStep supRunning (SupEvent.childCloseEv 0)).1.ffmpeg = none ∧
     (supStep supRunning (SupEvent.childCloseEv 0)).1.isStreaming = false ∧
     (supStep (supStep supRunning SupEvent.stopEv).1 (SupEvent.childCloseEv 1)).1 =
       (supStep supRunning SupEvent.stopEv).1) :=
  ⟨by decide, C2_clear_idempotent_amended supRunning 0 1 (by decide)⟩

/-- C3 counterexample: in a state with an active youtube stream, the transport
error handler leaves the server state untouched — the registry entry survives
and no supervisor is stopped — and merely logs, whereas the disconnect (close)
handler removes the registry entry. So the error handler does not perform the
same teardown as disconnect. -/
theorem C3_error_no_teardown_counterexample :
    handleErrorWs srvStreaming connStreaming ("boom") =
      (srvStreaming, connStreaming, [Effect.logErr ("WebSocket error: boom")]) ∧
    alGet srvStreaming.streams ("youtube") = some 0 ∧
    alGet (handleClose srvStreaming connStreaming).1.streams ("youtube") = none := by
  refine ⟨rfl, by decide, by decide⟩

/-- C3 amended: the transport error handler only logs the error; it performs
no teardown itself (server and connection state are returned unchanged).
Teardown is performed by the close handler — which the transport fires after
an error — and running it after the error handler behaves exactly like a
plain disconnect. -/
theorem C3_error_only_logs_amended (srv : Server) (c : Conn) (err : String) :
    handleErrorWs srv c err = (srv, c, [Effect.logErr (("WebSocket error: ") ++ err)]) ∧
    handleClose (handleErrorWs srv c err).1 (handleErrorWs srv c err).2.1 =
      handleClose srv c :=
  ⟨rfl, rfl⟩

/-- C4 counterexample: with credential files that provide a key but no
endpoint override, the supervisor created for twitch gets the YouTube RTMP
ingest URL — the same fallback the youtube supervisor gets. The built-in
default is one constant, not a default specific to the platform. -/
theorem C4_shared_default_counterexample :
    (alGet (handleMessage fsKeysOnly homeDir srv0demo newConn
        (Msg.text (some { platform := some ("twitch") }))).1.sups 0).map
      StreamOutput.streamUrl = some ("rtmp://a.rtmp.youtube.com/live2") ∧
    (alGet (handleMessage fsKeysOnly homeDir srv0demo newConn
        (Msg.text (some { platform := some ("twitch") }))).1.sups 0).map
      StreamOutput.streamUrl =
    (alGet (handleMessage fsKeysOnly homeDir srv0demo newConn
        (Msg.text (some { platform := some ("youtube") }))).1.sups 0).map
      StreamOutput.streamUrl := by
  decide

/-- C4 amended: for every platform whose credential file provides a stream key
but no truthy `STREAM_URL`, the resolved destination endpoint falls back to
the single built-in default `rtmp://a.rtmp.youtube.com/live2` — the same
constant regardless of the platform identifier. -/
theorem C4_default_url_amended (fsys : String → Option String) (home : String)
    (srv : Server) (c : Conn) (cfg : ConfigMsg) (sc : String → Option String)
    (h0 : c.streamOutput = none)
    (hl : loadStreamConfig fsys home (jsOr cfg.platform ("youtube")) = (some sc, []))
    (hkey : jsTruthy (sc ("STREAM_KEY")) = true)
    (hurl : jsTruthy (sc ("STREAM_URL")) = false) :
    (alGet (handleMessage fsys home srv c (Msg.text (some cfg))).1.sups srv.nextSup).map
      StreamOutput.streamUrl = some ("rtmp://a.rtmp.youtube.com/live2") := by
  rw [handleMessage_config_success fsys home srv c cfg sc h0 hl hkey]
  simp [alGet_alSet_self, jsOr_of_falsy _ _ hurl, defaultStreamUrl]

/-- Witness for the C4 amended theorem: twitch with a key-only credential
file resolves to the shared default URL. -/
theorem C4_default_url_amended_witness :
    newConn.streamOutput = none ∧
    loadStreamConfig fsKeysOnly homeDir (jsOr (some ("twitch")) ("youtube")) =
      (some (parseEnvContent ("STREAM_KEY=twkey456")), []) ∧
    jsTruthy ((parseEnvContent ("STREAM_KEY=twkey456")) ("STREAM_KEY")) = true ∧
    jsTruthy ((parseEnvContent ("STREAM_KEY=twkey456")) ("STREAM_URL")) = false ∧
    (alGet (handleMessage fsKeysOnly homeDir srv0demo newConn
        (Msg.text (some { platform := some ("twitch") }))).1.sups srv0demo.nextSup).map
      StreamOutput.streamUrl = some ("rtmp://a.rtmp.youtube.com/live2") :=
  ⟨rfl, rfl, by decide, by decide,
   C4_default_url_amended fsKeysOnly homeDir srv0demo newConn
     { platform := some ("twitch") } (parseEnvContent ("STREAM_KEY=twkey456"))
     rfl rfl (by decide) (by decide)⟩

/-- C1 counterexample: with valid youtube credentials but an encoder binary
that cannot be spawned, the failure surfaces only through the child error
event, which arrives after `start()` has returned. Before that event the
handler has already sent the success status frame (not an error frame) and
the supervisor state has changed (`isStreaming = true`, child reference set);
the error event itself only logs and sends the client nothing. This refutes
the claim that `start()` returns a StartError, that no state changes occur,
and that the session reports a failed configuration. -/
theorem C1_spawn_failure_counterexample :
    sentFrames (handleMessage fsDemo homeDir srv0demo newConn
        (Msg.text (some { platform := some ("youtube") }))).2.2 =
      [Frame.statusFrame ("streaming") ("youtube")] ∧
    (alGet (handleMessage fsDemo homeDir srv0demo newConn
        (Msg.text (some { platform := some ("youtube") }))).1.sups 0).map
      (fun s => (s.isStreaming, s.ffmpeg)) =
      some (true, some { id := 0, stdinWritable := true }) ∧
    sentFrames (handleChildEvent (handleMessage fsDemo homeDir srv0demo newConn
        (Msg.text (some { platform := some ("youtube") }))).1 0
        (SupEvent.childErrorEv ("spawn ffmpeg ENOENT"))).2 = [] := by
  decide

/-- C1 amended: `start()` has no failure return — on a valid configuration
the session always sends the success status frame and the supervisor records
the child with `running = true`, even when the spawn is doomed; the spawn
failure surfaces later as the child's error event, whose handler only logs
and clears the supervisor state (`running = false`, child reference null);
no error frame is ever sent to the client for it. -/
theorem C1_spawn_failure_amended (fsys : String → Option String) (home : String)
    (srv : Server) (c : Conn) (cfg : ConfigMsg) (sc : String → Option String) (err : String)
    (h0 : c.streamOutput = none)
    (hl : loadStreamConfig fsys home (jsOr cfg.platform ("youtube")) = (some sc, []))
    (hkey : jsTruthy (sc ("STREAM_KEY")) = true) :
    sentFrames (handleMessage fsys home srv c (Msg.text (some cfg))).2.2 =
      [Frame.statusFrame ("streaming") (jsOr cfg.platform ("youtube"))] ∧
    (alGet (handleMessage fsys home srv c (Msg.text (some cfg))).1.sups srv.nextSup).map
      (fun s => (s.isStreaming, s.ffmpeg)) =
      some (true, some { id := srv.nextSup, stdinWritable := true }) ∧
    (handleChildEvent (handleMessage fsys home srv c (Msg.text (some cfg))).1 srv.nextSup
        (SupEvent.childErrorEv err)).2 =
      [Effect.logErr (("[") ++ jsOr cfg.platform ("youtube") ++ ("] FFmpeg error: ") ++ err)] ∧
    sentFrames (handleChildEvent (handleMessage fsys home srv c (Msg.text (some cfg))).1
        srv.nextSup (SupEvent.childErrorEv err)).2 = [] ∧
    (alGet (handleChildEvent (handleMessage fsys home srv c (Msg.text (some cfg))).1 srv.nextSup
        (SupEvent.childErrorEv err)).1.sups srv.nextSup).map
      (fun s => (s.isStreaming, s.ffmpeg)) = some (false, none) := by
  rw [handleMessage_config_success fsys home srv c cfg sc h0 hl hkey]
  simp [handleChildEvent, alGet_alSet_self, supStep, sentFrames]

/-- Witness for the C1 amended theorem on the concrete demo filesystem. -/
theorem C1_spawn_failure_amended_witness :
    newConn.streamOutput = none ∧
    loadStreamConfig fsDemo homeDir (jsOr (some ("youtube")) ("youtube")) =
      (some (parseEnvContent ("STREAM_KEY=ytkey123")), []) ∧
    jsTruthy ((parseEnvContent ("STREAM_KEY=ytkey123")) ("STREAM_KEY")) = true ∧
    (sentFrames (handleMessage fsDemo homeDir srv0demo newConn
        (Msg.text (some { platform := some ("youtube") }))).2.2 =
      [Frame.statusFrame ("streaming") (jsOr (some ("youtube")) ("youtube"))] ∧
    (alGet (handleMessage fsDemo homeDir srv0demo newConn
        (Msg.text (some { platform := some ("youtube") }))).1.sups srv0demo.nextSup).map
      (fun s => (s.isStreaming, s.ffmpeg)) =
      some (true, some { id := srv0demo.nextSup, stdinWritable := true }) ∧
    (handleChildEvent (handleMessage fsDemo homeDir srv0demo newConn
        (Msg.text (some { platform := some ("youtube") }))).1 srv0demo.nextSup
        (SupEvent.childErrorEv ("ENOENT"))).2 =
      [Effect.logErr (("[") ++ jsOr (some ("youtube")) ("youtube") ++
        ("] FFmpeg error: ") ++ ("ENOENT"))] ∧
    sentFrames (handleChildEvent (handleMessage fsDemo homeDir srv0demo newConn
        (Msg.text (some { platform := some ("youtube") }))).1 srv0demo.nextSup
        (SupEvent.childErrorEv ("ENOENT"))).2 = [] ∧
    (alGet (handleChildEvent (handleMessage fsDemo homeDir srv0demo newConn
        (Msg.text (some { platform := some ("youtube") }))).1 srv0demo.nextSup
        (SupEvent.childErrorEv ("ENOENT"))).1.sups srv0demo.nextSup).map
      (fun s => (s.isStreaming, s.ffmpeg)) = some (false, none)) :=
  ⟨rfl, rfl, by decide,
   C1_spawn_failure_amended fsDemo homeDir srv0demo newConn
     { platform := some ("youtube") } (parseEnvContent ("STREAM_KEY=ytkey123")) ("ENOENT")
     rfl rfl (by decide)⟩

/-- C6 (confirmed): while a session is streaming (its `streamOutput` is set
to a supervisor whose child exists and whose stdin accepts writes), a
sequence of binary chunks arriving on the connection produces exactly one
stdin-write effect per chunk, addressed to that child, in the same order and
with byte-identical content — no mutation, loss, reordering or coalescing. -/
theorem C6_chunks_ordered (fsys : String → Option String) (home : String)
    (srv : Server) (c : Conn) (sid : Nat) (sup : StreamOutput) (child : ChildProcess)
    (chunks : List Chunk)
    (h1 : c.streamOutput = some sid)
    (h2 : alGet srv.sups sid = some sup)
    (h3 : sup.ffmpeg = some child)
    (h4 : child.stdinWritable = true) :
    (runMsgs fsys home srv c (chunks.map Msg.binary)).2.2 =
      chunks.map (Effect.stdinWrite child.id) := by
  induction chunks with
  | nil => simp [runMsgs]
  | cons b bs ih =>
    have hstep : handleMessage fsys home srv c (Msg.binary b) =
        (srv, c, [Effect.stdinWrite child.id b]) := by
      obtain ⟨so, pl⟩ := c
      simp only [Conn.streamOutput] at h1
      subst h1
      simp [handleMessage, h2, supStep, h3, h4, alSet_get_eq _ _ _ h2]
    simp [runMsgs, hstep, ih]

/-- Witness for C6 on a concrete streaming session and three chunks. -/
theorem C6_chunks_ordered_witness :
    connStreaming.streamOutput = some 0 ∧
    alGet srvStreaming.sups 0 = some supRunning ∧
    supRunning.ffmpeg = some { id := 0, stdinWritable := true } ∧
    ({ id := 0, stdinWritable := true } : ChildProcess).stdinWritable = true ∧
    (runMsgs fsDemo homeDir srvStreaming connStreaming
        (([[1, 2, 3], [4], [5, 5]] : List Chunk).map Msg.binary)).2.2 =
      ([[1, 2, 3], [4], [5, 5]] : List Chunk).map
        (Effect.stdinWrite ({ id := 0, stdinWritable := true } : ChildProcess).id) :=
  ⟨by decide, by decide, by decide, by decide,
   C6_chunks_ordered fsDemo homeDir srvStreaming connStreaming 0 supRunning
     { id := 0, stdinWritable := true } [[1, 2, 3], [4], [5, 5]]
     (by decide) (by decide) (by decide) (by decide)⟩

/-- C7 (confirmed): configuring a platform whose credentials do not resolve
(file missing, or no truthy key) sends exactly the error frame, spawns
nothing, leaves the server state unchanged and the session still awaiting
configuration (`streamOutput` null, connection open); a subsequent valid
configuration message on the same connection then succeeds: `streamOutput`
becomes set, the success frame is sent and exactly one child is spawned. -/
theorem C7_failed_config_retry (fsys : String → Option String) (home : String)
    (srv : Server) (c : Conn) (cfg cfg2 : ConfigMsg) (sc2 : String → Option String)
    (h0 : c.streamOutput = none)
    (hbad : configResolves fsys home (jsOr cfg.platform ("youtube")) = false)
    (hl2 : loadStreamConfig fsys home (jsOr cfg2.platform ("youtube")) = (some sc2, []))
    (hkey2 : jsTruthy (sc2 ("STREAM_KEY")) = true) :
    (handleMessage fsys home srv c (Msg.text (some cfg))).1 = srv ∧
    (handleMessage fsys home srv c (Msg.text (some cfg))).2.1.streamOutput = none ∧
    sentFrames (handleMessage fsys home srv c (Msg.text (some cfg))).2.2 =
      [Frame.errorFrame (("No stream key found for ") ++ jsOr cfg.platform ("youtube"))] ∧
    spawnCount (handleMessage fsys home srv c (Msg.text (some cfg))).2.2 = 0 ∧
    (handleMessage fsys home (handleMessage fsys home srv c (Msg.text (some cfg))).1
        (handleMessage fsys home srv c (Msg.text (some cfg))).2.1
        (Msg.text (some cfg2))).2.1.streamOutput = some srv.nextSup ∧
    sentFrames (handleMessage fsys home (handleMessage fsys home srv c (Msg.text (some cfg))).1
        (handleMessage fsys home srv c (Msg.text (some cfg))).2.1
        (Msg.text (some cfg2))).2.2 =
      [Frame.statusFrame ("streaming") (jsOr cfg2.platform ("youtube"))] ∧
    spawnCount (handleMessage fsys home (handleMessage fsys home srv c (Msg.text (some cfg))).1
        (handleMessage fsys home srv c (Msg.text (some cfg))).2.1
        (Msg.text (some cfg2))).2.2 = 1 := by
  obtain ⟨hsrv, hconn, hframes, hspawn⟩ := handleMessage_config_failure fsys home srv c cfg h0 hbad
  refine ⟨hsrv, by rw [hconn], hframes, hspawn, ?_, ?_, ?_⟩
  all_goals rw [hsrv, hconn,
    handleMessage_config_success fsys home srv _ cfg2 sc2 rfl hl2 hkey2]
  all_goals simp [sentFrames, spawnCount, List.filter_cons]

/-- Witness for C7: twitch (no credential file) fails, then youtube succeeds
on the same connection. -/
theorem C7_failed_config_retry_witness :
    newConn.streamOutput = none ∧
    configResolves fsDemo homeDir (jsOr (some ("twitch")) ("youtube")) = false ∧
    loadStreamConfig fsDemo homeDir (jsOr (some ("youtube")) ("youtube")) =
      (some (parseEnvContent ("STREAM_KEY=ytkey123")), []) ∧
    jsTruthy ((parseEnvContent ("STREAM_KEY=ytkey123")) ("STREAM_KEY")) = true ∧
    ((handleMessage fsDemo homeDir srv0demo newConn
        (Msg.text (some { platform := some ("twitch") }))).1 = srv0demo ∧
    (handleMessage fsDemo homeDir srv0demo newConn
        (Msg.text (some { platform := some ("twitch") }))).2.1.streamOutput = none ∧
    sentFrames (handleMessage fsDemo homeDir srv0demo newConn
        (Msg.text (some { platform := some ("twitch") }))).2.2 =
      [Frame.errorFrame (("No stream key found for ") ++ jsOr (some ("twitch")) ("youtube"))] ∧
    spawnCount (handleMessage fsDemo homeDir srv0demo newConn
        (Msg.text (some { platform := some ("twitch") }))).2.2 = 0 ∧
    (handleMessage fsDemo homeDir
        (handleMessage fsDemo homeDir srv0demo newConn
          (Msg.text (some { platform := some ("twitch") }))).1
        (handleMessage fsDemo homeDir srv0demo newConn
          (Msg.text (some { platform := some ("twitch") }))).2.1
        (Msg.text (some { platform := some ("youtube") }))).2.1.streamOutput =
      some srv0demo.nextSup ∧
    sentFrames (handleMessage fsDemo homeDir
        (handleMessage fsDemo homeDir srv0demo newConn
          (Msg.text (some { platform := some ("twitch") }))).1
        (handleMessage fsDemo homeDir srv0demo newConn
          (Msg.text (some { platform := some ("twitch") }))).2.1
        (Msg.text (some { platform := some ("youtube") }))).2.2 =
      [Frame.statusFrame ("streaming") (jsOr (some ("youtube")) ("youtube"))] ∧
    spawnCount (handleMessage fsDemo homeDir
        (handleMessage fsDemo homeDir srv0demo newConn
          (Msg.text (some { platform := some ("twitch") }))).1
        (handleMessage fsDemo homeDir srv0demo newConn
          (Msg.text (some { platform := some ("twitch") }))).2.1
        (Msg.text (some { platform := some ("youtube") }))).2.2 = 1) :=
  ⟨rfl, by decide, rfl, by decide,
   C7_failed_config_retry fsDemo homeDir srv0demo newConn
     { platform := some ("twitch") } { platform := some ("youtube") }
     (parseEnvContent ("STREAM_KEY=ytkey123"))
     rfl (by decide) rfl (by decide)⟩

/-- Shape of the close handler for a session whose supervisor has a live
child: stop the supervisor (end stdin, SIGTERM the child, clear state) and
delete the registry entry for the session's platform. -/
theorem handleClose_streaming (srv : Server) (sid : Nat) (p : String)
    (sup : StreamOutput) (child : ChildProcess)
    (h2 : alGet srv.sups sid = some sup) (h3 : sup.ffmpeg = some child) :
    handleClose srv { streamOutput := some sid, platform := p } =
      ({ srv with
          sups := alSet srv.sups sid { sup with ffmpeg := none, isStreaming := false }
          streams := alDelete srv.streams p },
       { streamOutput := some sid, platform := p },
       [Effect.log ("Browser disconnected"),
        Effect.log (("[") ++ sup.platform ++ ("] Stopping ffmpeg")),
        Effect.stdinEnd child.id, Effect.kill child.id ("SIGTERM")]) := by
  simp [handleClose, h2, supStep, h3]

/-- C9 (confirmed): when a second session configures a platform already in
the registry, it is not rejected — it receives the success status frame and
its `streams.set` overwrites the existing entry; the registry then maps the
platform to the second supervisor and keeps exactly one entry for that key
(key-uniqueness of the registry is preserved). -/
theorem C9_registry_overwrites (fsys : String → Option String) (home : String)
    (srv : Server) (cA cB : Conn) (cfg : ConfigMsg) (sc : String → Option String)
    (hA : cA.streamOutput = none) (hB : cB.streamOutput = none)
    (hl : loadStreamConfig fsys home (jsOr cfg.platform ("youtube")) = (some sc, []))
    (hkey : jsTruthy (sc ("STREAM_KEY")) = true)
    (hnd : (srv.streams.map Prod.fst).Nodup) :
    alGet (handleMessage fsys home srv cA (Msg.text (some cfg))).1.streams
      (jsOr cfg.platform ("youtube")) = some srv.nextSup ∧
    alGet (handleMessage fsys home (handleMessage fsys home srv cA (Msg.text (some cfg))).1 cB
        (Msg.text (some cfg))).1.streams (jsOr cfg.platform ("youtube")) =
      some (srv.nextSup + 1) ∧
    sentFrames (handleMessage fsys home (handleMessage fsys home srv cA (Msg.text (some cfg))).1
        cB (Msg.text (some cfg))).2.2 =
      [Frame.statusFrame ("streaming") (jsOr cfg.platform ("youtube"))] ∧
    keyCount (handleMessage fsys home (handleMessage fsys home srv cA (Msg.text (some cfg))).1
        cB (Msg.text (some cfg))).1.streams (jsOr cfg.platform ("youtube")) = 1 ∧
    ((handleMessage fsys home (handleMessage fsys home srv cA (Msg.text (some cfg))).1 cB
        (Msg.text (some cfg))).1.streams.map Prod.fst).Nodup := by
  rw [handleMessage_config_success fsys home srv cA cfg sc hA hl hkey]
  rw [handleMessage_config_success fsys home _ cB cfg sc hB hl hkey]
  refine ⟨alGet_alSet_self _ _ _, alGet_alSet_self _ _ _, ?_, ?_, ?_⟩
  · simp [sentFrames]
  · exact keyCount_alSet _ _ _ (nodup_keys_alSet _ _ _ hnd)
  · exact nodup_keys_alSet _ _ _ (nodup_keys_alSet _ _ _ hnd)

/-- Witness for C9: two fresh sessions configure youtube on the demo
filesystem; the second registration overwrites the first. -/
theorem C9_registry_overwrites_witness :
    newConn.streamOutput = none ∧
    loadStreamConfig fsDemo homeDir (jsOr (some ("youtube")) ("youtube")) =
      (some (parseEnvContent ("STREAM_KEY=ytkey123")), []) ∧
    jsTruthy ((parseEnvContent ("STREAM_KEY=ytkey123")) ("STREAM_KEY")) = true ∧
    (srv0demo.streams.map Prod.fst).Nodup ∧
    (alGet (handleMessage fsDemo homeDir srv0demo newConn
        (Msg.text (some { platform := some ("youtube") }))).1.streams
      (jsOr (some ("youtube")) ("youtube")) = some srv0demo.nextSup ∧
    alGet (handleMessage fsDemo homeDir (handleMessage fsDemo homeDir srv0demo newConn
        (Msg.text (some { platform := some ("youtube") }))).1 newConn
        (Msg.text (some { platform := some ("youtube") }))).1.streams
      (jsOr (some ("youtube")) ("youtube")) = some (srv0demo.nextSup + 1) ∧
    sentFrames (handleMessage fsDemo homeDir (handleMessage fsDemo homeDir srv0demo newConn
        (Msg.text (some { platform := some ("youtube") }))).1 newConn
        (Msg.text (some { platform := some ("youtube") }))).2.2 =
      [Frame.statusFrame ("streaming") (jsOr (some ("youtube")) ("youtube"))] ∧
    keyCount (handleMessage fsDemo homeDir (handleMessage fsDemo homeDir srv0demo newConn
        (Msg.text (some { platform := some ("youtube") }))).1 newConn
        (Msg.text (some { platform := some ("youtube") }))).1.streams
      (jsOr (some ("youtube")) ("youtube")) = 1 ∧
    ((handleMessage fsDemo homeDir (handleMessage fsDemo homeDir srv0demo newConn
        (Msg.text (some { platform := some ("youtube") }))).1 newConn
        (Msg.text (some { platform := some ("youtube") }))).1.streams.map Prod.fst).Nodup) :=
  ⟨rfl, rfl, by decide, by decide,
   C9_registry_overwrites fsDemo homeDir srv0demo newConn newConn
     { platform := some ("youtube") } (parseEnvContent ("STREAM_KEY=ytkey123"))
     rfl rfl rfl (by decide) (by decide)⟩

/-- C10 (confirmed): after session A and then session B configure the same
platform (B's registration overwrote A's registry entry), A's disconnect
deletes the platform's registry entry unconditionally: B's supervisor
disappears from the registry — the platform is gone from health reporting —
while B's child keeps running (its supervisor in the heap still has
`isStreaming = true` and a live child reference), and A's teardown never
stops B's child: the only kill effect is for A's child. -/
theorem C10_close_deletes_overwritten_entry (fsys : String → Option String) (home : String)
    (srv : Server) (cA cB : Conn) (cfg : ConfigMsg) (sc : String → Option String)
    (hA : cA.streamOutput = none) (hB : cB.streamOutput = none)
    (hl : loadStreamConfig fsys home (jsOr cfg.platform ("youtube")) = (some sc, []))
    (hkey : jsTruthy (sc ("STREAM_KEY")) = true) :
    alGet (handleClose (handleMessage fsys home (handleMessage fsys home srv cA
        (Msg.text (some cfg))).1 cB (Msg.text (some cfg))).1
        (handleMessage fsys home srv cA (Msg.text (some cfg))).2.1).1.streams
      (jsOr cfg.platform ("youtube")) = none ∧
    (jsOr cfg.platform ("youtube")) ∉ healthStreams
      (handleClose (handleMessage fsys home (handleMessage fsys home srv cA
        (Msg.text (some cfg))).1 cB (Msg.text (some cfg))).1
        (handleMessage fsys home srv cA (Msg.text (some cfg))).2.1).1 ∧
    (alGet (handleClose (handleMessage fsys home (handleMessage fsys home srv cA
        (Msg.text (some cfg))).1 cB (Msg.text (some cfg))).1
        (handleMessage fsys home srv cA (Msg.text (some cfg))).2.1).1.sups
      (srv.nextSup + 1)).map (fun s => (s.isStreaming, s.ffmpeg)) =
      some (true, some { id := srv.nextSup + 1, stdinWritable := true }) ∧
    killsOf (handleClose (handleMessage fsys home (handleMessage fsys home srv cA
        (Msg.text (some cfg))).1 cB (Msg.text (some cfg))).1
        (handleMessage fsys home srv cA (Msg.text (some cfg))).2.1).2.2 =
      [Effect.kill srv.nextSup ("SIGTERM")] := by
  rw [handleMessage_config_success fsys home srv cA cfg sc hA hl hkey]
  rw [handleMessage_config_success fsys home _ cB cfg sc hB hl hkey]
  have hne : srv.nextSup ≠ srv.nextSup + 1 := Nat.ne_of_lt (Nat.lt_succ_self _)
  have hgetA : alGet (alSet (alSet srv.sups srv.nextSup
      { platform := jsOr cfg.platform ("youtube")
        streamKey := (sc ("STREAM_KEY")).getD ("")
        streamUrl := jsOr (sc ("STREAM_URL")) defaultStreamUrl
        ffmpeg := some { id := srv.nextSup, stdinWritable := true }
        isStreaming := true }) (srv.nextSup + 1)
      { platform := jsOr cfg.platform ("youtube")
        streamKey := (sc ("STREAM_KEY")).getD ("")
        streamUrl := jsOr (sc ("STREAM_URL")) defaultStreamUrl
        ffmpeg := some { id := srv.nextSup + 1, stdinWritable := true }
        isStreaming := true }) srv.nextSup = some
      { platform := jsOr cfg.platform ("youtube")
        streamKey := (sc ("STREAM_KEY")).getD ("")
        streamUrl := jsOr (sc ("STREAM_URL")) defaultStreamUrl
        ffmpeg := some { id := srv.nextSup, stdinWritable := true }
        isStreaming := true } := by
    rw [alGet_alSet_ne _ _ _ _ hne, alGet_alSet_self]
  rw [handleClose_streaming _ _ _ _ { id := srv.nextSup, stdinWritable := true } hgetA rfl]
  refine ⟨alGet_alDelete_self _ _, ?_, ?_, ?_⟩
  · simpa [healthStreams] using not_mem_keys_alDelete
      (alSet (alSet srv.streams (jsOr cfg.platform ("youtube")) srv.nextSup)
        (jsOr cfg.platform ("youtube")) (srv.nextSup + 1)) (jsOr cfg.platform ("youtube"))
  · rw [show ∀ (m : List (Nat × StreamOutput)) v, alGet (alSet m srv.nextSup v)
        (srv.nextSup + 1) = alGet m (srv.nextSup + 1) from
      fun m v => alGet_alSet_ne m _ _ v (Ne.symm hne)]
    rw [alGet_alSet_self]
    rfl
  · simp [killsOf, List.filter_cons]

/-- Witness for C10: sessions A and B both configure youtube on the demo
filesystem; A's disconnect removes B's registry entry while B's child stays
alive and only A's child is killed. -/
theorem C10_close_deletes_overwritten_entry_witness :
    newConn.streamOutput = none ∧
    loadStreamConfig fsDemo homeDir (jsOr (some ("youtube")) ("youtube")) =
      (some (parseEnvContent ("STREAM_KEY=ytkey123")), []) ∧
    jsTruthy ((parseEnvContent ("STREAM_KEY=ytkey123")) ("STREAM_KEY")) = true ∧
    (alGet (handleClose (handleMessage fsDemo homeDir (handleMessage fsDemo homeDir srv0demo
        newConn (Msg.text (some { platform := some ("youtube") }))).1 newConn
        (Msg.text (some { platform := some ("youtube") }))).1
        (handleMessage fsDemo homeDir srv0demo newConn
          (Msg.text (some { platform := some ("youtube") }))).2.1).1.streams
      (jsOr (some ("youtube")) ("youtube")) = none ∧
    (jsOr (some ("youtube")) ("youtube")) ∉ healthStreams
      (handleClose (handleMessage fsDemo homeDir (handleMessage fsDemo homeDir srv0demo
        newConn (Msg.text (some { platform := some ("youtube") }))).1 newConn
        (Msg.text (some { platform := some ("youtube") }))).1
        (handleMessage fsDemo homeDir srv0demo newConn
          (Msg.text (some { platform := some ("youtube") }))).2.1).1 ∧
    (alGet (handleClose (handleMessage fsDemo homeDir (handleMessage fsDemo homeDir srv0demo
        newConn (Msg.text (some { platform := some ("youtube") }))).1 newConn
        (Msg.text (some { platform := some ("youtube") }))).1
        (handleMessage fsDemo homeDir srv0demo newConn
          (Msg.text (some { platform := some ("youtube") }))).2.1).1.sups
      (srv0demo.nextSup + 1)).map (fun s => (s.isStreaming, s.ffmpeg)) =
      some (true, some { id := srv0demo.nextSup + 1, stdinWritable := true }) ∧
    killsOf (handleClose (handleMessage fsDemo homeDir (handleMessage fsDemo homeDir srv0demo
        newConn (Msg.text (some { platform := some ("youtube") }))).1 newConn
        (Msg.text (some { platform := some ("youtube") }))).1
        (handleMessage fsDemo homeDir srv0demo newConn
          (Msg.text (some { platform := some ("youtube") }))).2.1).2.2 =
      [Effect.kill srv0demo.nextSup ("SIGTERM")]) :=
  ⟨rfl, rfl, by decide,
   C10_close_deletes_overwritten_entry fsDemo homeDir srv0demo newConn newConn
     { platform := some ("youtube") } (parseEnvContent ("STREAM_KEY=ytkey123"))
     rfl rfl rfl (by decide)⟩
